import Mathlib

/-!
Shallow embedding of `src/compliance_api.py`: a Flask service exposing a
compliance query API over an external `AuditLogger` store.

The store (`audit_logger.query_logs` / `audit_logger.get_statistics`) is
external to the repository; handlers are parameterized by it.  Each handler
returns, next to its HTTP response, the list of filters it passed to
`query_logs` (in call order), so that "the store is called with exactly F"
and "the store is never called" are expressible.
-/

namespace ComplianceApi

/-- JSON values appearing as fields of a request body (Python scalars;
no endpoint inspects the structure of a non-scalar field). -/
inductive JValue where
  | jstr (s : String)
  | jint (n : Int)
  | jbool (b : Bool)
  | jnull
deriving Repr, DecidableEq

/-- A JSON object body: ordered key/value pairs (Python dicts preserve
insertion order); lookup takes the first binding. -/
abbrev Body := List (String × JValue)

/-- The filter dict handed to `audit_logger.query_logs`. -/
abbrev Filter := List (String × JValue)

/-- An audit record as consumed by this service: an ordered mapping of
field names to (stringified) values, opaque otherwise. -/
abbrev Record := List (String × String)

/-- The statistics summary returned by `audit_logger.get_statistics`;
opaque to this service (passthrough only). -/
abbrev Stats := List (String × String)

/-- The external store's `query_logs`: either a list of matching records or
a raised exception, represented by its string form `str(e)`. -/
abbrev Store := Filter → Except String (List Record)

/-- Response bodies the service can produce. -/
inductive RespBody where
  | jsonErr (msg : String)
  | queryOk (count : Nat) (results : List Record)
  | record (r : Record)
  | dupOk (count : Nat) (inputHash : String) (results : List Record)
  | stats (s : Stats)
  | csv (data : String)
deriving Repr, DecidableEq

/-- An HTTP response: status code, body, and the headers the export path
sets (`mimetype`, `Content-Disposition`). -/
structure Response where
  status : Nat
  body : RespBody
  mimetype : String := "application/json"
  contentDisposition : Option String := none
deriving Repr, DecidableEq

/-- `digitsRest cs`: `cs` continues a run of ASCII digits in which single
underscores may separate digits (Python int-literal grouping). -/
def digitsRest : List Char → Bool
  | [] => true
  | c :: cs =>
    if c.isDigit then digitsRest cs
    else if c = '_' then
      match cs with
      | [] => false
      | c2 :: cs2 => c2.isDigit && digitsRest cs2
    else false

/-- A nonempty digit run, possibly with single underscores between digits. -/
def digitsOk : List Char → Bool
  | [] => false
  | c :: cs => c.isDigit && digitsRest cs

/-- Numeric value of a digit run, skipping underscores. -/
def digitsValue (cs : List Char) : Nat :=
  cs.foldl (fun a c => if c.isDigit then a * 10 + (c.toNat - 48) else a) 0

/-- ASCII whitespace stripped by `int(str)` before parsing. -/
def isPySpace (c : Char) : Bool :=
  c = ' ' || c = '\t' || c = '\n' || c = '\r' || c = '\x0b' || c = '\x0c'

/-- Strip whitespace from both ends. -/
def stripChars (cs : List Char) : List Char :=
  ((cs.dropWhile isPySpace).reverse.dropWhile isPySpace).reverse

/-- Python `int(s)` on a string: strip whitespace, optional sign, base-10
digits (underscore grouping allowed); otherwise `ValueError`. -/
def pythonIntOfString (s : String) : Except String Int :=
  let cs := stripChars s.toList
  match cs with
  | '+' :: rest =>
    if digitsOk rest then .ok (digitsValue rest)
    else .error ("invalid literal for int() with base 10: '" ++ s ++ "'")
  | '-' :: rest =>
    if digitsOk rest then .ok (-(digitsValue rest : Int))
    else .error ("invalid literal for int() with base 10: '" ++ s ++ "'")
  | _ =>
    if digitsOk cs then .ok (digitsValue cs)
    else .error ("invalid literal for int() with base 10: '" ++ s ++ "'")

/-- Python `int(x)` on a JSON value: ints pass through, bools coerce,
strings parse, `None` and lists raise `TypeError`. -/
def pythonInt : JValue → Except String Int
  | .jint n => .ok n
  | .jbool b => .ok (if b then 1 else 0)
  | .jstr s => pythonIntOfString s
  | .jnull =>
    .error "int() argument must be a string, a bytes-like object or a real number, not 'NoneType'"

/-- The 400 message for an invalid `status` value (line 74 of the source). -/
def statusErrMsg : String := "status must be 'success' or 'error'"

/-- `if k in query_params: filters[k] = query_params[k]` — append the
binding when the key is present in the body. -/
def addIfPresent (qp : Body) (k : String) (f : Filter) : Filter :=
  match qp.lookup k with
  | some v => f ++ [(k, v)]
  | none => f

/-- Filter construction of `compliance_query` after the `status` check:
`start_time`, `end_time`, then `limit` via `int(...)` (a `ValueError`
propagates to the outer handler, which answers 500 with `str(e)`). -/
def buildAfterStatus (qp : Body) (f : Filter) : Except Response Filter :=
  let f := addIfPresent qp "start_time" f
  let f := addIfPresent qp "end_time" f
  match qp.lookup "limit" with
  | some v =>
    match pythonInt v with
    | .ok n => .ok (f ++ [("limit", .jint n)])
    | .error e => .error { status := 500, body := .jsonErr e }
  | none => .ok f

/-- Filter construction of `compliance_query` (source lines 55–84): the
five plain passthrough fields, the `status` enum check (early 400), then
the time bounds and `limit`. -/
def buildQueryFilters (qp : Body) : Except Response Filter :=
  let f := addIfPresent qp "request_id" []
  let f := addIfPresent qp "input_hash" f
  let f := addIfPresent qp "tenant_id" f
  let f := addIfPresent qp "user_id" f
  let f := addIfPresent qp "source" f
  match qp.lookup "status" with
  | some v =>
    if v == .jstr "success" || v == .jstr "error" then
      buildAfterStatus qp (f ++ [("status", v)])
    else .error { status := 400, body := .jsonErr statusErrMsg }
  | none => buildAfterStatus qp f

/-- `POST /api/compliance/query` (source lines 30–96).  `reqJson = none`
models `request.json` being `None` (absent/null body); `request.json or {}`
substitutes the empty dict.  Returns the response and the filters passed
to `query_logs`. -/
def compliance_query (store : Store) (reqJson : Option Body) :
    Response × List Filter :=
  let qp := reqJson.getD []
  match buildQueryFilters qp with
  | .error r => (r, [])
  | .ok filters =>
    match store filters with
    | .error e => ({ status := 500, body := .jsonErr e }, [filters])
    | .ok results =>
      ({ status := 200, body := .queryOk results.length results }, [filters])

/-- `GET /api/compliance/request/<request_id>` (source lines 99–120). -/
def get_request (store : Store) (request_id : String) :
    Response × List Filter :=
  let f : Filter := [("request_id", .jstr request_id), ("limit", .jint 1)]
  match store f with
  | .error e => ({ status := 500, body := .jsonErr e }, [f])
  | .ok results =>
    match results with
    | [] => ({ status := 404, body := .jsonErr "Request not found" }, [f])
    | r :: _ => ({ status := 200, body := .record r }, [f])

/-- `GET /api/compliance/duplicates/<input_hash>` (source lines 123–147). -/
def get_duplicates (store : Store) (input_hash : String) :
    Response × List Filter :=
  let f : Filter := [("input_hash", .jstr input_hash)]
  match store f with
  | .error e => ({ status := 500, body := .jsonErr e }, [f])
  | .ok results =>
    ({ status := 200, body := .dupOk results.length input_hash results }, [f])

/-- `GET /api/compliance/statistics` (source lines 150–164): passthrough of
`audit_logger.get_statistics()`. -/
def get_statistics (statsCall : Except String Stats) : Response :=
  match statsCall with
  | .ok s => { status := 200, body := .stats s }
  | .error e => { status := 500, body := .jsonErr e }

/-- csv excel dialect: a field is quoted iff it holds a delimiter,
quotechar or line break. -/
def csvNeedsQuote (s : String) : Bool :=
  s.any (fun c => c = ',' || c = '"' || c = '\r' || c = '\n')

/-- Render one CSV field (QUOTE_MINIMAL, doubling embedded quotes). -/
def csvField (s : String) : String :=
  if csvNeedsQuote s then "\"" ++ (s.replace "\"" "\"\"") ++ "\"" else s

/-- Render one CSV row (comma-joined fields, terminator added separately). -/
def csvRow (fields : List String) : String :=
  String.intercalate "," (fields.map csvField)

/-- `csv.DictWriter.writerow` on one record: with the default
`extrasaction` a key outside `fieldnames` raises `ValueError`; a missing
field renders as the empty string (`restval=None`). -/
def dictRow (fieldnames : List String) (r : Record) :
    Except String (List String) :=
  if r.any (fun kv => !(fieldnames.contains kv.1)) then
    .error "dict contains fields not in fieldnames"
  else
    .ok (fieldnames.map (fun k => (r.lookup k).getD ""))

/-- The CSV rows written by `export_logs` (lines 199–204): nothing for an
empty result set; otherwise a header of the first record's keys followed by
one row per record. -/
def csvLines (results : List Record) : Except String (List String) :=
  match results with
  | [] => .ok []
  | r0 :: _ =>
    let fieldnames := r0.map Prod.fst
    (results.mapM (dictRow fieldnames)).map
      (fun rows => csvRow fieldnames :: rows.map csvRow)

/-- The CSV payload: each row terminated by CRLF (excel dialect). -/
def csvData (results : List Record) : Except String String :=
  (csvLines results).map (fun ls => String.join (ls.map (· ++ "\r\n")))

/-- A calendar date, standing for `datetime.utcnow()`'s date. -/
structure PyDate where
  year : Nat
  month : Nat
  day : Nat
deriving Repr, DecidableEq

/-- Zero-pad a number to a width (as `strftime` does). -/
def padNum (w : Nat) (n : Nat) : String :=
  let s := toString n
  String.mk (List.replicate (w - s.length) '0') ++ s

/-- `strftime("%Y%m%d")` on a date. -/
def strftimeYMD (d : PyDate) : String :=
  padNum 4 d.year ++ padNum 2 d.month ++ padNum 2 d.day

/-- Filter construction of `export_logs` (source lines 185–192): only the
two time bounds are read from the body, and `limit` is then forced to
10000. -/
def exportFilters (qp : Body) : Filter :=
  addIfPresent qp "end_time" (addIfPresent qp "start_time" []) ++
    [("limit", .jint 10000)]

/-- `POST /api/compliance/export` (source lines 167–220): only
`start_time`/`end_time` are read from the body, `limit` is forced to
10000, the results are serialized as CSV and returned as a dated
attachment.  `today` stands for `datetime.utcnow()`'s date. -/
def export_logs (store : Store) (reqJson : Option Body) (today : PyDate) :
    Response × List Filter :=
  let filters := exportFilters (reqJson.getD [])
  match store filters with
  | .error e => ({ status := 500, body := .jsonErr e }, [filters])
  | .ok results =>
    match csvData results with
    | .error e => ({ status := 500, body := .jsonErr e }, [filters])
    | .ok data =>
      ({ status := 200, body := .csv data, mimetype := "text/csv",
         contentDisposition :=
           some ("attachment; filename=audit_logs_" ++ strftimeYMD today ++ ".csv") },
       [filters])

/-! ### Proof support -/

/-- The contribution of one body key to a filter built by `addIfPresent`. -/
def segOf (qp : Body) (k : String) : Filter :=
  match qp.lookup k with
  | some v => [(k, v)]
  | none => []

theorem addIfPresent_eq (qp : Body) (k : String) (f : Filter) :
    addIfPresent qp k f = f ++ segOf qp k := by
  unfold addIfPresent segOf
  cases qp.lookup k <;> simp

theorem mem_segOf (qp : Body) (k a : String) (v : JValue) :
    (a, v) ∈ segOf qp k ↔ a = k ∧ qp.lookup k = some v := by
  unfold segOf
  cases h : qp.lookup k with
  | none => simp
  | some w =>
    simp only [List.mem_singleton, Prod.mk.injEq, Option.some.injEq]
    constructor
    · rintro ⟨rfl, rfl⟩; exact ⟨rfl, rfl⟩
    · rintro ⟨rfl, rfl⟩; exact ⟨rfl, rfl⟩

theorem lookup_segOf_self (qp : Body) (k : String) :
    (segOf qp k).lookup k = qp.lookup k := by
  unfold segOf
  cases qp.lookup k <;> simp [List.lookup]

theorem lookup_segOf_ne (qp : Body) (k a : String) (h : a ≠ k) :
    (segOf qp k).lookup a = none := by
  have hb : (a == k) = false := beq_eq_false_iff_ne.mpr h
  unfold segOf
  cases qp.lookup k <;> simp [List.lookup, hb]

theorem lookup_append_none (a : String) (l1 l2 : Filter)
    (h : l1.lookup a = none) : (l1 ++ l2).lookup a = l2.lookup a := by
  induction l1 with
  | nil => simp
  | cons p l ih =>
    simp only [List.lookup, List.cons_append] at h ⊢
    cases hpa : (a == p.1) with
    | true => simp [hpa] at h
    | false => simp only [hpa] at h ⊢; exact ih h

theorem lookup_append (a : String) (l1 l2 : Filter) :
    (l1 ++ l2).lookup a = (l1.lookup a).or (l2.lookup a) := by
  induction l1 with
  | nil => simp [Option.or]
  | cons p l ih =>
    simp only [List.cons_append, List.lookup]
    cases h : (a == p.1) <;> simp [Option.or, ih]

/-- The `limit` contribution to the Query filter: present and converted by
`int(...)` exactly when the body holds a parseable `limit`. -/
def segLimit (qp : Body) : Filter :=
  match qp.lookup "limit" with
  | some v =>
    match pythonInt v with
    | .ok n => [("limit", .jint n)]
    | .error _ => []
  | none => []

/-- The nine body keys `compliance_query` recognizes. -/
def recognizedKeys : List String :=
  ["request_id", "input_hash", "tenant_id", "user_id", "source", "status",
   "start_time", "end_time", "limit"]

/-- The filter `compliance_query` hands to the store, as the concatenation
of per-key contributions in source order. -/
def expectedQueryFilter (qp : Body) : Filter :=
  segOf qp "request_id" ++ (segOf qp "input_hash" ++ (segOf qp "tenant_id" ++
  (segOf qp "user_id" ++ (segOf qp "source" ++ (segOf qp "status" ++
  (segOf qp "start_time" ++ (segOf qp "end_time" ++ segLimit qp)))))))

theorem segLimit_eq_of_none (qp : Body) (hl : qp.lookup "limit" = none) :
    segLimit qp = [] := by
  unfold segLimit; simp [hl]

theorem segLimit_eq_of_ok (qp : Body) (w : JValue) (n : Int)
    (hl : qp.lookup "limit" = some w) (hn : pythonInt w = .ok n) :
    segLimit qp = [("limit", .jint n)] := by
  unfold segLimit; simp [hl, hn]

theorem segLimit_eq_of_err (qp : Body) (w : JValue) (e : String)
    (hl : qp.lookup "limit" = some w) (hn : pythonInt w = .error e) :
    segLimit qp = [] := by
  unfold segLimit; simp [hl, hn]

theorem mem_segLimit (qp : Body) (a : String) (v : JValue) :
    (a, v) ∈ segLimit qp ↔
      a = "limit" ∧ ∃ w n, qp.lookup "limit" = some w ∧ pythonInt w = .ok n ∧
        v = .jint n := by
  cases hl : qp.lookup "limit" with
  | none => rw [segLimit_eq_of_none qp hl]; simp [hl]
  | some w =>
    cases hn : pythonInt w with
    | error e => rw [segLimit_eq_of_err qp w e hl hn]; simp [hl, hn]
    | ok n => rw [segLimit_eq_of_ok qp w n hl hn]; simp [hl, hn, eq_comm]

theorem buildQueryFilters_ok (qp : Body)
    (hstatus : ∀ v, qp.lookup "status" = some v →
      v = .jstr "success" ∨ v = .jstr "error")
    (hlimit : ∀ v, qp.lookup "limit" = some v → ∃ n, pythonInt v = .ok n) :
    buildQueryFilters qp = .ok (expectedQueryFilter qp) := by
  have hAfter : ∀ f : Filter,
      buildAfterStatus qp f =
        .ok (f ++ (segOf qp "start_time" ++ (segOf qp "end_time" ++ segLimit qp))) := by
    intro f
    unfold buildAfterStatus
    simp only [addIfPresent_eq]
    cases hl : qp.lookup "limit" with
    | none =>
      simp [segLimit_eq_of_none qp hl, List.append_assoc]
    | some v =>
      obtain ⟨n, hn⟩ := hlimit v hl
      rw [segLimit_eq_of_ok qp v n hl hn]
      simp [hn, List.append_assoc]
  unfold buildQueryFilters
  simp only [addIfPresent_eq, List.nil_append]
  cases hst : qp.lookup "status" with
  | none =>
    have hseg : segOf qp "status" = [] := by unfold segOf; rw [hst]
    simp [hAfter, hseg, expectedQueryFilter, List.append_assoc]
  | some v =>
    have hcond : (v == JValue.jstr "success" || v == JValue.jstr "error") = true := by
      rcases hstatus v hst with rfl | rfl <;> decide
    have hseg : segOf qp "status" = [("status", v)] := by unfold segOf; rw [hst]
    simp [hcond, hAfter, hseg, expectedQueryFilter, List.append_assoc]

/-! ### Claim theorems -/

/-- C1: on a Query body with a valid `status` (if any) and a parseable
`limit` (if any), the store is called once, with a filter holding exactly
the recognized keys explicitly present in the body, each mapped to the
supplied value (`limit` converted to an integer); keys absent from the body
are absent from the filter. -/
theorem query_filter_exact (store : Store) (qp : Body)
    (hstatus : ∀ v, qp.lookup "status" = some v →
      v = .jstr "success" ∨ v = .jstr "error")
    (hlimit : ∀ v, qp.lookup "limit" = some v → ∃ n, pythonInt v = .ok n) :
    (compliance_query store (some qp)).2 = [expectedQueryFilter qp] ∧
    (∀ k v, k ≠ "limit" →
      ((k, v) ∈ expectedQueryFilter qp ↔
        k ∈ recognizedKeys ∧ qp.lookup k = some v)) ∧
    (∀ v, (("limit", v) ∈ expectedQueryFilter qp ↔
      ∃ w n, qp.lookup "limit" = some w ∧ pythonInt w = .ok n ∧
        v = .jint n)) := by
  refine ⟨?_, ?_, ?_⟩
  · unfold compliance_query
    simp only [Option.getD_some, buildQueryFilters_ok qp hstatus hlimit]
    cases hs : store (expectedQueryFilter qp) <;> simp [hs]
  · intro k v hk
    unfold expectedQueryFilter
    simp only [List.mem_append, mem_segOf, mem_segLimit, recognizedKeys,
      List.mem_cons, List.not_mem_nil, or_false]
    constructor
    · rintro (⟨rfl, h⟩ | ⟨rfl, h⟩ | ⟨rfl, h⟩ | ⟨rfl, h⟩ | ⟨rfl, h⟩ | ⟨rfl, h⟩ |
        ⟨rfl, h⟩ | ⟨rfl, h⟩ | ⟨rfl, h⟩)
      · exact ⟨by simp, h⟩
      · exact ⟨by simp, h⟩
      · exact ⟨by simp, h⟩
      · exact ⟨by simp, h⟩
      · exact ⟨by simp, h⟩
      · exact ⟨by simp, h⟩
      · exact ⟨by simp, h⟩
      · exact ⟨by simp, h⟩
      · exact absurd rfl hk
    · rintro ⟨(rfl | rfl | rfl | rfl | rfl | rfl | rfl | rfl | rfl), h⟩
      · exact Or.inl ⟨rfl, h⟩
      · exact Or.inr (Or.inl ⟨rfl, h⟩)
      · exact Or.inr (Or.inr (Or.inl ⟨rfl, h⟩))
      · exact Or.inr (Or.inr (Or.inr (Or.inl ⟨rfl, h⟩)))
      · exact Or.inr (Or.inr (Or.inr (Or.inr (Or.inl ⟨rfl, h⟩))))
      · exact Or.inr (Or.inr (Or.inr (Or.inr (Or.inr (Or.inl ⟨rfl, h⟩)))))
      · exact Or.inr (Or.inr (Or.inr (Or.inr (Or.inr (Or.inr (Or.inl ⟨rfl, h⟩))))))
      · exact Or.inr (Or.inr (Or.inr (Or.inr (Or.inr (Or.inr (Or.inr (Or.inl ⟨rfl, h⟩)))))))
      · exact absurd rfl hk
  · intro v
    unfold expectedQueryFilter
    simp [List.mem_append, mem_segOf, mem_segLimit]

/-- C2: a Query body whose `status` is not `success`/`error` is answered
with HTTP 400, the body message contains "status must be", and
`query_logs` is never called. -/
theorem query_invalid_status_rejected (store : Store) (qp : Body) (v : JValue)
    (hv : qp.lookup "status" = some v)
    (hs : v ≠ .jstr "success") (he : v ≠ .jstr "error") :
    compliance_query store (some qp) =
      ({ status := 400, body := .jsonErr statusErrMsg }, []) ∧
    ∃ s t, statusErrMsg = s ++ "status must be" ++ t := by
  refine ⟨?_, "", " 'success' or 'error'", by decide⟩
  have hcond : (v == JValue.jstr "success" || v == JValue.jstr "error") = false := by
    simp only [Bool.or_eq_false_iff]
    exact ⟨beq_eq_false_iff_ne.mpr hs, beq_eq_false_iff_ne.mpr he⟩
  simp only [compliance_query, buildQueryFilters, Option.getD_some, hv, hcond,
    Bool.false_eq_true, if_false]

/-- C3 counterexample: the body `{"limit": "abc"}` is answered with HTTP
500 (the `ValueError` from `int` falls into the generic handler), not the
claimed 400; the store is still never called. -/
theorem query_bad_limit_counterexample :
    (compliance_query (fun _ => .ok []) (some [("limit", JValue.jstr "abc")])).1.status = 500 ∧
    (compliance_query (fun _ => .ok []) (some [("limit", JValue.jstr "abc")])).1.status ≠ 400 ∧
    (compliance_query (fun _ => .ok []) (some [("limit", JValue.jstr "abc")])).2 = [] :=
  ⟨rfl, by decide, rfl⟩

theorem buildQueryFilters_err_of_bad_limit (qp : Body) (v : JValue) (e : String)
    (hstatus : ∀ w, qp.lookup "status" = some w →
      w = .jstr "success" ∨ w = .jstr "error")
    (hl : qp.lookup "limit" = some v) (he : pythonInt v = .error e) :
    buildQueryFilters qp = .error { status := 500, body := .jsonErr e } := by
  unfold buildQueryFilters buildAfterStatus
  cases hst : qp.lookup "status" with
  | none => simp [hl, he]
  | some w =>
    have hcond : (w == JValue.jstr "success" || w == JValue.jstr "error") = true := by
      rcases hstatus w hst with rfl | rfl <;> decide
    simp [hcond, hl, he]

/-- C3 amended: a Query body with a valid `status` (if any) and an
unparseable `limit` is answered with HTTP 500 carrying the exception's
string representation, and the store is never called. -/
theorem query_bad_limit_500 (store : Store) (qp : Body) (v : JValue) (e : String)
    (hstatus : ∀ w, qp.lookup "status" = some w →
      w = .jstr "success" ∨ w = .jstr "error")
    (hl : qp.lookup "limit" = some v) (he : pythonInt v = .error e) :
    compliance_query store (some qp) =
      ({ status := 500, body := .jsonErr e }, []) := by
  unfold compliance_query
  simp [buildQueryFilters_err_of_bad_limit qp v e hstatus hl he]

theorem query_bad_limit_500_witness :
    List.lookup "limit" [(("limit" : String), JValue.jstr "abc")] =
      some (JValue.jstr "abc") ∧
    pythonInt (JValue.jstr "abc") =
      .error "invalid literal for int() with base 10: 'abc'" ∧
    compliance_query (fun _ => .ok []) (some [("limit", JValue.jstr "abc")]) =
      ({ status := 500,
         body := .jsonErr "invalid literal for int() with base 10: 'abc'" }, []) :=
  ⟨rfl, rfl,
    query_bad_limit_500 (fun _ => .ok []) [("limit", JValue.jstr "abc")]
      (JValue.jstr "abc") "invalid literal for int() with base 10: 'abc'"
      (fun _ hw => Option.noConfusion hw) rfl rfl⟩

theorem lookup_limit_expected (qp : Body) :
    (expectedQueryFilter qp).lookup "limit" = (segLimit qp).lookup "limit" := by
  unfold expectedQueryFilter
  simp only [lookup_append, Option.or]
  rw [lookup_segOf_ne qp _ _ (by decide), lookup_segOf_ne qp _ _ (by decide),
    lookup_segOf_ne qp _ _ (by decide), lookup_segOf_ne qp _ _ (by decide),
    lookup_segOf_ne qp _ _ (by decide), lookup_segOf_ne qp _ _ (by decide),
    lookup_segOf_ne qp _ _ (by decide), lookup_segOf_ne qp _ _ (by decide)]

/-- C4 counterexample: the body `{"limit": 0}` reaches the store with
`limit = 0`, which is not positive; and with `limit` absent the filter the
store receives holds no `limit` key at all (no 100 is substituted by the
service). -/
theorem query_limit_claim_counterexample :
    (compliance_query (fun _ => .ok []) (some [("limit", JValue.jint 0)])).2 =
      [[("limit", JValue.jint 0)]] ∧
    ¬ ((0 : Int) > 0) ∧
    (compliance_query (fun _ => .ok []) (some ([] : Body))).2 = [([] : Filter)] ∧
    List.lookup "limit" ([] : Filter) = none :=
  ⟨rfl, by decide, rfl, rfl⟩

/-- C4 amended: when a Query that reaches the store carries a `limit` in
its body, the filter's `limit` is exactly `int(value)` (not necessarily
positive); when the body omits `limit`, the filter handed to the store has
no `limit` key — the 100 default is the store's, not this service's. -/
theorem query_limit_passthrough (store : Store) (qp : Body)
    (hstatus : ∀ w, qp.lookup "status" = some w →
      w = .jstr "success" ∨ w = .jstr "error") :
    (∀ v n, qp.lookup "limit" = some v → pythonInt v = .ok n →
      (compliance_query store (some qp)).2 = [expectedQueryFilter qp] ∧
      (expectedQueryFilter qp).lookup "limit" = some (.jint n)) ∧
    (qp.lookup "limit" = none →
      (compliance_query store (some qp)).2 = [expectedQueryFilter qp] ∧
      (expectedQueryFilter qp).lookup "limit" = none) := by
  have htrace : (∀ v, qp.lookup "limit" = some v → ∃ n, pythonInt v = .ok n) →
      (compliance_query store (some qp)).2 = [expectedQueryFilter qp] := by
    intro hlim
    unfold compliance_query
    simp only [Option.getD_some, buildQueryFilters_ok qp hstatus hlim]
    cases hs : store (expectedQueryFilter qp) <;> simp [hs]
  constructor
  · intro v n hv hn
    refine ⟨htrace ?_, ?_⟩
    · intro w hw
      rw [hv] at hw
      cases hw
      exact ⟨n, hn⟩
    · rw [lookup_limit_expected, segLimit_eq_of_ok qp v n hv hn]
      simp [List.lookup]
  · intro hnone
    refine ⟨htrace ?_, ?_⟩
    · intro w hw
      rw [hnone] at hw
      cases hw
    · rw [lookup_limit_expected, segLimit_eq_of_none qp hnone]
      simp [List.lookup]

theorem query_limit_passthrough_witness :
    List.lookup "limit" [(("limit" : String), JValue.jint 5)] =
      some (JValue.jint 5) ∧
    pythonInt (JValue.jint 5) = .ok 5 ∧
    (compliance_query (fun _ => .ok []) (some [("limit", JValue.jint 5)])).2 =
      [expectedQueryFilter [("limit", JValue.jint 5)]] ∧
    (expectedQueryFilter [("limit", JValue.jint 5)]).lookup "limit" =
      some (.jint 5) :=
  ⟨rfl, rfl,
    ((query_limit_passthrough (fun _ => .ok []) [("limit", JValue.jint 5)]
        (fun _ hw => Option.noConfusion hw)).1
      (JValue.jint 5) 5 rfl rfl).1,
    ((query_limit_passthrough (fun _ => .ok []) [("limit", JValue.jint 5)]
        (fun _ hw => Option.noConfusion hw)).1
      (JValue.jint 5) 5 rfl rfl).2⟩

/-- C6: the by-request-id lookup always queries the store with exactly
`{request_id: id, limit: 1}`; an empty result yields 404 with body
`{"error": "Request not found"}`, a nonempty one yields 200 with the first
record. -/
theorem get_request_spec (store : Store) (id : String) :
    (get_request store id).2 = [[("request_id", .jstr id), ("limit", .jint 1)]] ∧
    (store [("request_id", .jstr id), ("limit", .jint 1)] = .ok [] →
      get_request store id =
        ({ status := 404, body := .jsonErr "Request not found" },
         [[("request_id", .jstr id), ("limit", .jint 1)]])) ∧
    (∀ r rs, store [("request_id", .jstr id), ("limit", .jint 1)] = .ok (r :: rs) →
      get_request store id =
        ({ status := 200, body := .record r },
         [[("request_id", .jstr id), ("limit", .jint 1)]])) := by
  unfold get_request
  cases h : store [("request_id", .jstr id), ("limit", .jint 1)] with
  | error e => simp [h]
  | ok results => cases results <;> simp [h]

/-- C9: the duplicates lookup queries the store with exactly
`{input_hash: hash}` (no `limit` key), and on success echoes the hash with
the results and their count. -/
theorem get_duplicates_spec (store : Store) (h : String) :
    (get_duplicates store h).2 = [[("input_hash", .jstr h)]] ∧
    (List.lookup "limit" [(("input_hash" : String), JValue.jstr h)] = none) ∧
    (∀ rs, store [("input_hash", .jstr h)] = .ok rs →
      get_duplicates store h =
        ({ status := 200, body := .dupOk rs.length h rs },
         [[("input_hash", .jstr h)]])) := by
  refine ⟨?_, by simp [List.lookup], ?_⟩
  · unfold get_duplicates
    cases hs : store [("input_hash", .jstr h)] <;> simp [hs]
  · intro rs hs
    unfold get_duplicates
    simp [hs]

/-- C10: an absent/null JSON body is treated as the empty object for both
Query and ExportCsv: the store receives the empty filter (with the forced
`limit=10000` for export) and the request is not rejected. -/
theorem null_body_as_empty_object (store : Store) (d : PyDate) :
    compliance_query store none = compliance_query store (some []) ∧
    (compliance_query store none).2 = [([] : Filter)] ∧
    (∀ rs, store [] = .ok rs → (compliance_query store none).1.status = 200) ∧
    export_logs store none d = export_logs store (some []) d ∧
    (export_logs store none d).2 = [[(("limit" : String), JValue.jint 10000)]] ∧
    (∀ rs data, store [("limit", .jint 10000)] = .ok rs → csvData rs = .ok data →
      (export_logs store none d).1.status = 200) := by
  have hb : buildQueryFilters [] = .ok [] := by
    unfold buildQueryFilters buildAfterStatus addIfPresent
    simp [List.lookup]
  have hef : exportFilters [] = [(("limit" : String), JValue.jint 10000)] := by
    unfold exportFilters addIfPresent
    simp [List.lookup]
  refine ⟨rfl, ?_, ?_, rfl, ?_, ?_⟩
  · unfold compliance_query
    simp only [Option.getD_none, hb]
    cases hs : store [] <;> simp [hs]
  · intro rs hs
    unfold compliance_query
    simp [hb, hs]
  · unfold export_logs
    simp only [Option.getD_none, hef]
    cases hs : store [(("limit" : String), JValue.jint 10000)] with
    | error e => simp [hs]
    | ok rs =>
      cases hc : csvData rs <;> simp [hs, hc]
  · intro rs data hs hc
    unfold export_logs
    simp [hef, hs, hc]

theorem dictRow_ok_of_keys_eq (fns : List String) (r : Record)
    (h : r.map Prod.fst = fns) :
    dictRow fns r = .ok (fns.map (fun k => (r.lookup k).getD "")) := by
  have hany : (r.any fun kv => !(fns.contains kv.1)) = false := by
    rw [List.any_eq_false]
    rintro ⟨a, w⟩ hkv
    have hm : a ∈ fns := h ▸ List.mem_map_of_mem Prod.fst hkv
    have hc : fns.contains a = true := List.elem_eq_true_of_mem hm
    show ¬ (!fns.contains a) = true
    rw [hc]
    decide
  unfold dictRow
  rw [hany]
  simp

theorem mapM_dictRow_ok (fns : List String) (l : List Record)
    (h : ∀ r ∈ l, r.map Prod.fst = fns) :
    l.mapM (dictRow fns) =
      .ok (l.map fun r => fns.map fun k => (r.lookup k).getD "") := by
  induction l with
  | nil => rfl
  | cons r rest ih =>
    rw [List.mapM_cons, dictRow_ok_of_keys_eq fns r (h r (List.mem_cons_self r rest)),
      ih (fun x hx => h x (List.mem_cons_of_mem r hx))]
    rfl

/-- C5: on an empty result set the export body is the empty string (no
header row); on N records sharing the first record's key list, the CSV is
one header row — the first record's keys in order — followed by exactly N
data rows. -/
theorem export_csv_shape (store : Store) (b : Option Body) (d : PyDate)
    (results : List Record)
    (hres : store (exportFilters (b.getD [])) = .ok results) :
    (results = [] →
      (export_logs store b d).1.status = 200 ∧
      (export_logs store b d).1.body = .csv "") ∧
    (∀ r0 rest, results = r0 :: rest →
      (∀ r ∈ results, r.map Prod.fst = r0.map Prod.fst) →
      ∃ dataRows : List String,
        csvLines results = .ok (csvRow (r0.map Prod.fst) :: dataRows) ∧
        dataRows.length = results.length ∧
        (export_logs store b d).1.status = 200 ∧
        (export_logs store b d).1.body =
          .csv (String.join
            ((csvRow (r0.map Prod.fst) :: dataRows).map (· ++ "\r\n")))) := by
  constructor
  · rintro rfl
    have hdata : csvData ([] : List Record) = .ok "" := rfl
    unfold export_logs
    simp [hres, hdata]
  · rintro r0 rest rfl hkeys
    have hlines : csvLines (r0 :: rest) =
        .ok (csvRow (r0.map Prod.fst) ::
          ((r0 :: rest).map fun r =>
            csvRow ((r0.map Prod.fst).map fun k => (r.lookup k).getD ""))) := by
      simp only [csvLines]
      rw [mapM_dictRow_ok (r0.map Prod.fst) (r0 :: rest) hkeys]
      simp [Except.map, List.map_map]
    have hdata : csvData (r0 :: rest) =
        .ok (String.join
          ((csvRow (r0.map Prod.fst) ::
            ((r0 :: rest).map fun r =>
              csvRow ((r0.map Prod.fst).map fun k => (r.lookup k).getD ""))).map
            (· ++ "\r\n"))) := by
      unfold csvData
      rw [hlines]
      rfl
    refine ⟨(r0 :: rest).map fun r =>
      csvRow ((r0.map Prod.fst).map fun k => (r.lookup k).getD ""),
      hlines, by simp, ?_, ?_⟩
    · unfold export_logs
      simp [hres, hdata]
    · unfold export_logs
      simp [hres, hdata]

/-- C7: the export filter holds `start_time`/`end_time` exactly as present
in the body, no other caller-supplied key, and always `limit = 10000`; a
successful export is a `text/csv` attachment named with the current UTC
date as `audit_logs_YYYYMMDD.csv`. -/
theorem export_filter_and_filename (store : Store) (b : Option Body) (d : PyDate) :
    (export_logs store b d).2 = [exportFilters (b.getD [])] ∧
    (exportFilters (b.getD [])).lookup "start_time" =
      (b.getD []).lookup "start_time" ∧
    (exportFilters (b.getD [])).lookup "end_time" =
      (b.getD []).lookup "end_time" ∧
    (exportFilters (b.getD [])).lookup "limit" = some (.jint 10000) ∧
    (∀ k, k ≠ "start_time" → k ≠ "end_time" → k ≠ "limit" →
      (exportFilters (b.getD [])).lookup k = none) ∧
    (∀ results data, store (exportFilters (b.getD [])) = .ok results →
      csvData results = .ok data →
      export_logs store b d =
        ({ status := 200, body := .csv data, mimetype := "text/csv",
           contentDisposition := some ("attachment; filename=audit_logs_" ++
             strftimeYMD d ++ ".csv") },
         [exportFilters (b.getD [])])) := by
  have hlk : ∀ a : String,
      (exportFilters (b.getD [])).lookup a =
        ((segOf (b.getD []) "start_time").lookup a).or
          (((segOf (b.getD []) "end_time").lookup a).or
            (List.lookup a [("limit", JValue.jint 10000)])) := by
    intro a
    unfold exportFilters
    simp only [addIfPresent_eq, List.nil_append, List.append_assoc]
    rw [lookup_append, lookup_append]
  refine ⟨?_, ?_, ?_, ?_, ?_, ?_⟩
  · unfold export_logs
    cases hs : store (exportFilters (b.getD [])) with
    | error e => simp [hs]
    | ok rs => cases hc : csvData rs <;> simp [hs, hc]
  · rw [hlk, lookup_segOf_self, lookup_segOf_ne _ _ _ (by decide)]
    have h2 : List.lookup "start_time" [(("limit" : String), JValue.jint 10000)] = none := rfl
    rw [h2]
    cases (b.getD []).lookup "start_time" <;> rfl
  · rw [hlk, lookup_segOf_self, lookup_segOf_ne _ _ _ (by decide)]
    have h2 : List.lookup "end_time" [(("limit" : String), JValue.jint 10000)] = none := rfl
    rw [h2]
    cases (b.getD []).lookup "end_time" <;> rfl
  · rw [hlk, lookup_segOf_ne _ _ _ (by decide), lookup_segOf_ne _ _ _ (by decide)]
    rfl
  · intro k h1 h2 h3
    rw [hlk, lookup_segOf_ne _ _ _ h1, lookup_segOf_ne _ _ _ h2]
    have hb : (k == "limit") = false := beq_eq_false_iff_ne.mpr h3
    simp [List.lookup, hb, Option.or]
  · intro results data hs hc
    unfold export_logs
    simp [hs, hc]

/-- C8: on each of the five operations, a store failure — and for Query a
`limit`-parsing failure — yields HTTP 500 whose error field is the
exception's string representation; nothing else is returned for that
request. -/
theorem store_failure_yields_500 (store : Store)
    (statsCall : Except String Stats) (e : String) :
    (∀ qp f, buildQueryFilters qp = .ok f → store f = .error e →
      compliance_query store (some qp) =
        ({ status := 500, body := .jsonErr e }, [f])) ∧
    (∀ qp v, (∀ w, qp.lookup "status" = some w →
        w = .jstr "success" ∨ w = .jstr "error") →
      qp.lookup "limit" = some v → pythonInt v = .error e →
      compliance_query store (some qp) =
        ({ status := 500, body := .jsonErr e }, [])) ∧
    (∀ id, store [("request_id", .jstr id), ("limit", .jint 1)] = .error e →
      get_request store id = ({ status := 500, body := .jsonErr e },
        [[("request_id", .jstr id), ("limit", .jint 1)]])) ∧
    (∀ h, store [("input_hash", .jstr h)] = .error e →
      get_duplicates store h = ({ status := 500, body := .jsonErr e },
        [[("input_hash", .jstr h)]])) ∧
    (statsCall = .error e →
      get_statistics statsCall = { status := 500, body := .jsonErr e }) ∧
    (∀ (b : Option Body) d, store (exportFilters (b.getD [])) = .error e →
      export_logs store b d = ({ status := 500, body := .jsonErr e },
        [exportFilters (b.getD [])])) := by
  refine ⟨?_, ?_, ?_, ?_, ?_, ?_⟩
  · intro qp f hb hs
    unfold compliance_query
    simp [hb, hs]
  · intro qp v hstatus hl he
    unfold compliance_query
    simp [buildQueryFilters_err_of_bad_limit qp v e hstatus hl he]
  · intro id hs
    unfold get_request
    simp [hs]
  · intro h hs
    unfold get_duplicates
    simp [hs]
  · intro hst
    subst hst
    rfl
  · intro b d hs
    unfold export_logs
    simp [hs]

/-! ### Witnesses: the claim theorems applied at concrete inputs -/

theorem query_filter_exact_witness :
    List.lookup "status"
      [(("status" : String), JValue.jstr "success"),
       (("limit" : String), JValue.jstr "7")] = some (JValue.jstr "success") ∧
    pythonInt (JValue.jstr "7") = .ok 7 ∧
    (compliance_query (fun _ => .ok [])
      (some [("status", JValue.jstr "success"), ("limit", JValue.jstr "7")])).2 =
      [expectedQueryFilter
        [("status", JValue.jstr "success"), ("limit", JValue.jstr "7")]] :=
  ⟨rfl, rfl,
    (query_filter_exact (fun _ => .ok [])
      [("status", JValue.jstr "success"), ("limit", JValue.jstr "7")]
      (fun w hw => by injection hw with h; exact Or.inl h.symm)
      (fun v hv => by injection hv with h; exact h ▸ ⟨7, rfl⟩)).1⟩

theorem query_invalid_status_rejected_witness :
    List.lookup "status" [(("status" : String), JValue.jstr "pending")] =
      some (JValue.jstr "pending") ∧
    compliance_query (fun _ => .ok [])
      (some [("status", JValue.jstr "pending")]) =
      ({ status := 400, body := .jsonErr statusErrMsg }, []) :=
  ⟨rfl,
    (query_invalid_status_rejected (fun _ => .ok [])
      [("status", JValue.jstr "pending")] (JValue.jstr "pending")
      rfl (by decide) (by decide)).1⟩

theorem export_csv_shape_witness :
    (∀ r ∈ [[(("a" : String), ("1" : String)), ("b", "2")], [("a", "3"), ("b", "4")]],
      r.map Prod.fst = ["a", "b"]) ∧
    ∃ dataRows : List String,
      csvLines [[("a", "1"), ("b", "2")], [("a", "3"), ("b", "4")]] =
        .ok (csvRow ["a", "b"] :: dataRows) ∧
      dataRows.length = 2 ∧
      (export_logs
        (fun _ => .ok [[("a", "1"), ("b", "2")], [("a", "3"), ("b", "4")]])
        (some []) ⟨2026, 1, 2⟩).1.status = 200 ∧
      (export_logs
        (fun _ => .ok [[("a", "1"), ("b", "2")], [("a", "3"), ("b", "4")]])
        (some []) ⟨2026, 1, 2⟩).1.body =
        .csv (String.join ((csvRow ["a", "b"] :: dataRows).map (· ++ "\r\n"))) :=
  ⟨by decide,
    (export_csv_shape
      (fun _ => .ok [[("a", "1"), ("b", "2")], [("a", "3"), ("b", "4")]])
      (some []) ⟨2026, 1, 2⟩
      [[("a", "1"), ("b", "2")], [("a", "3"), ("b", "4")]] rfl).2
      [("a", "1"), ("b", "2")] [[("a", "3"), ("b", "4")]] rfl (by decide)⟩

theorem get_request_spec_witness :
    ((fun _ => .ok []) : Store)
      [("request_id", JValue.jstr "unknown-id"), ("limit", JValue.jint 1)] =
      .ok [] ∧
    get_request (fun _ => .ok []) "unknown-id" =
      ({ status := 404, body := .jsonErr "Request not found" },
       [[("request_id", .jstr "unknown-id"), ("limit", .jint 1)]]) :=
  ⟨rfl, (get_request_spec (fun _ => .ok []) "unknown-id").2.1 rfl⟩

theorem export_filter_and_filename_witness :
    strftimeYMD ⟨2026, 1, 2⟩ = "20260102" ∧
    export_logs (fun _ => .ok []) (some []) ⟨2026, 1, 2⟩ =
      ({ status := 200, body := .csv "", mimetype := "text/csv",
         contentDisposition := some ("attachment; filename=audit_logs_" ++
           strftimeYMD ⟨2026, 1, 2⟩ ++ ".csv") },
       [exportFilters []]) :=
  ⟨rfl,
    (export_filter_and_filename (fun _ => .ok []) (some []) ⟨2026, 1, 2⟩).2.2.2.2.2
      [] "" rfl rfl⟩

theorem store_failure_yields_500_witness :
    ((fun _ => .error "boom") : Store)
      [("request_id", JValue.jstr "r1"), ("limit", JValue.jint 1)] =
      .error "boom" ∧
    get_request (fun _ => .error "boom") "r1" =
      ({ status := 500, body := .jsonErr "boom" },
       [[("request_id", .jstr "r1"), ("limit", .jint 1)]]) ∧
    get_statistics (.error "boom") = { status := 500, body := .jsonErr "boom" } :=
  ⟨rfl,
    (store_failure_yields_500 (fun _ => .error "boom") (.error "boom")
      "boom").2.2.1 "r1" rfl,
    (store_failure_yields_500 (fun _ => .error "boom") (.error "boom")
      "boom").2.2.2.2.1 rfl⟩

theorem get_duplicates_spec_witness :
    ((fun _ => .ok [[("request_id", "a")]]) : Store)
      [("input_hash", JValue.jstr "h1")] = .ok [[("request_id", "a")]] ∧
    get_duplicates (fun _ => .ok [[("request_id", "a")]]) "h1" =
      ({ status := 200, body := .dupOk 1 "h1" [[("request_id", "a")]] },
       [[("input_hash", .jstr "h1")]]) :=
  ⟨rfl,
    (get_duplicates_spec (fun _ => .ok [[("request_id", "a")]]) "h1").2.2
      [[("request_id", "a")]] rfl⟩

theorem null_body_as_empty_object_witness :
    ((fun _ => .ok []) : Store) [] = .ok [] ∧
    (compliance_query (fun _ => .ok []) none).1.status = 200 ∧
    (export_logs (fun _ => .ok []) none ⟨2026, 1, 2⟩).1.status = 200 :=
  ⟨rfl,
    (null_body_as_empty_object (fun _ => .ok []) ⟨2026, 1, 2⟩).2.2.1 [] rfl,
    (null_body_as_empty_object (fun _ => .ok []) ⟨2026, 1, 2⟩).2.2.2.2.2
      [] "" rfl rfl⟩

end ComplianceApi
